import Mathlib

/-!
Verification of the torchcam `DepthCamera` core.

A shallow embedding of `src/torchcam/camera.py` (class `DepthCamera`).

Modelling choices:

* Images are records of (height, width, channels) together with a symbolic
  pixel content `Pix` tracking exactly which platform transforms produced
  the buffer (a raw camera read, the estimator colormap, a `cv2.resize`
  resample, or an in-place `cv2.putText` overlay).  This keeps the content
  comparable ("pixel-for-pixel equal" iff the `Pix` terms agree) without
  modelling individual pixels.
* Python object identity matters in `run()` (`display_frame` aliases
  `frame` when live render is off, and `cv2.putText` mutates the shared
  buffer in place), so frames live on an explicit heap (`List Img`) and
  local variables hold indices into it.
* All observable side effects (prints, `cv2.imshow`, `camera.release()`,
  `cv2.destroyAllWindows()`, and an explicit marker for each invocation of
  `DepthCamera.capture` recording the argument it received) are gathered
  in an event trace.
* Nondeterministic platform inputs (camera reads, `perf_counter`,
  `datetime.now`, `cv2.waitKey`) are sequences supplied by an environment
  record; the estimator's `live_render` flag and `device` string are
  environment fields as well.
* Exceptions are explicit: `ZeroDivisionError` from the FPS computation
  and the errors raised downstream when a failed read hands `None` to the
  colormap or to `cv2.putText`.  The `try/except/finally` of `run()` is
  modelled by the driver `DepthCamera_run`.
* The `while` loop is driven by fuel; a run that exhausts its fuel before
  the loop finishes is reported as `none` (the real loop is still going).
-/

/-- Python's built-in `round`: round half to even (banker's rounding). -/
def pyRound (q : ℚ) : ℤ :=
  let f : ℤ := ⌊q⌋
  let frac : ℚ := q - f
  if frac < 1/2 then f
  else if 1/2 < frac then f + 1
  else if f % 2 = 0 then f else f + 1

/-- Arguments of one `cv2.putText` call: the text drawn onto the image and
the fixed position/font/scale/color/thickness used at camera.py line 107. -/
structure TextDraw where
  text : String
  orgX : ℤ
  orgY : ℤ
  font : ℕ
  fontScale : ℚ
  colorR : ℤ
  colorG : ℤ
  colorB : ℤ
  thickness : ℤ
  deriving DecidableEq, Repr

/-- Symbolic pixel content of an image buffer: which sequence of platform
operations produced it.  Two buffers are pixel-for-pixel equal iff their
`Pix` terms are equal. -/
inductive Pix where
  | raw (readId : ℕ)
  | colormapped (p : Pix)
  | withText (p : Pix) (t : TextDraw)
  | resized (p : Pix) (w h : ℤ)
  deriving DecidableEq, Repr

/-- An image (`np.ndarray` of shape (height, width, channels)). -/
structure Img where
  height : ℤ
  width : ℤ
  channels : ℕ
  content : Pix
  deriving DecidableEq, Repr

/-- Observable side effects of the `DepthCamera` code, in program order.
`captureCall frame` marks an invocation of `DepthCamera.capture` and
records the image value the `frame` argument held at call time. -/
inductive Event where
  | print (s : String)
  | imshow (title : String) (img : Img)
  | captureCall (frame : Img)
  | release
  | destroyAllWindows
  deriving DecidableEq, Repr

/-- Exceptions that the loop body of `run()` can raise: the
`ZeroDivisionError` of `fps = round(1 / (end - start))`, and the errors
raised when a failed `camera.read()` leaves `frame = None` and `None`
reaches `estimator.colormap` (live render) or `cv2.putText`. -/
inductive PyExc where
  | zeroDivision
  | colormapNone
  | putTextNone
  deriving DecidableEq, Repr

/-- `str(e)` for the modelled exceptions (the two `None` messages are
abstract placeholders for the platform's wording). -/
def excMsg : PyExc → String
  | PyExc.zeroDivision => "float division by zero"
  | PyExc.colormapNone => "unsupported NoneType input to colormap"
  | PyExc.putTextNone => "putText: image argument is NoneType"

/-- Environment of one `run()` execution: the platform inputs consumed by
the loop and the two estimator fields the core reads.  `reads i` is the
result of the camera read of iteration `i` (`none` for a failed read,
otherwise the (height, width) of the fresh frame); `clock n` is the value
of the `n`-th `perf_counter()` call; `nowDate n` / `nowTime n` are the
formatted date and time of the `n`-th `datetime.now()` call; `keys i` is
the `cv2.waitKey(10)` result of iteration `i`. -/
structure RunEnv where
  reads : ℕ → Option (ℤ × ℤ)
  clock : ℕ → ℚ
  nowDate : ℕ → String
  nowTime : ℕ → String
  keys : ℕ → ℤ
  live_render : Bool
  device : String

/-- The mutable state of a `DepthCamera` object together with the heap of
image buffers and the trace of emitted events.  `scale` is the private
`__scale` field; `clockIdx` and `nowIdx` count the `perf_counter()` and
`datetime.now()` calls made so far. -/
structure CamState where
  is_running : Bool
  scale : ℚ
  heap : List Img
  events : List Event
  clockIdx : ℕ
  nowIdx : ℕ
  deriving DecidableEq, Repr

/-- `DepthCamera.__init__`: `is_running = False`, `__scale = scale`, and
the startup notice is printed. -/
def DepthCamera_init (scale : ℚ) (mode color : String) : CamState :=
  { is_running := false
    scale := scale
    heap := []
    events := [Event.print s!"Starting up depth scanner, running {mode} mode and using {color} mapping."]
    clockIdx := 0
    nowIdx := 0 }

/-- The `scale` property getter: returns `self.__scale`. -/
def DepthCamera_scale (s : CamState) : ℚ :=
  s.scale

/-- The body of the `set_scale` property setter: unconditionally
`self.__scale = new_scale_factor`. -/
def DepthCamera_set_scale (s : CamState) (new_scale_factor : ℚ) : CamState :=
  { s with scale := new_scale_factor }

/-- `estimator.colormap`: the opaque depth-estimation false-color
transform; a pure function producing a fresh buffer of the same shape. -/
def estimator_colormap (img : Img) : Img :=
  { img with content := Pix.colormapped img.content }

/-- `cv2.resize(image, (w, h), interpolation=cv2.INTER_AREA)`: a fresh
image of shape (h, w) resampled from the input. -/
def cv2_resize (img : Img) (w h : ℤ) : Img :=
  { height := h, width := w, channels := img.channels
    content := Pix.resized img.content w h }

/-- `cv2.putText`: draws text onto the buffer, mutating it in place (the
caller stores the result back at the buffer's heap cell). -/
def cv2_putText (img : Img) (d : TextDraw) : Img :=
  { img with content := Pix.withText img.content d }

/-- `DepthCamera.__resize(image, factor)`: unpacks (height, width, _) from
the shape, rounds each dimension times the factor with Python `round`, and
calls `cv2.resize` with `(new width, new height)`. -/
def DepthCamera_resize (image : Img) (factor : ℚ) : Img :=
  let newW : ℤ := pyRound ((image.width : ℚ) * factor)
  let newH : ℤ := pyRound ((image.height : ℚ) * factor)
  cv2_resize image newW newH

/-- The `TextDraw` of camera.py line 107:
`cv2.putText(display_frame, f'FPS: {fps}', (10, 30),
cv2.FONT_HERSHEY_SIMPLEX, 0.7, (10, 255, 100), 2)`. -/
def fpsDraw (fps : ℤ) : TextDraw :=
  { text := s!"FPS: {fps}", orgX := 10, orgY := 30, font := 0
    fontScale := 7/10, colorR := 10, colorG := 255, colorB := 100
    thickness := 2 }

/-- The capture log line `[{date_today} | {timestamp}] Frame captured!`. -/
def captureMsg (date_today timestamp : String) : String :=
  s!"[{date_today} | {timestamp}] Frame captured!"

/-- `DepthCamera.capture(frame)`: applies `estimator.colormap` to the
given frame, reads `datetime.now()` twice (date, then time), prints the
capture log line and shows the colored map in a window titled
`Depth Scan - {timestamp}`.  The leading `captureCall` event marks the
invocation and records the argument. -/
def DepthCamera_capture (env : RunEnv) (s : CamState) (frame : Img) : CamState :=
  let colored_map := estimator_colormap frame
  let date_today := env.nowDate s.nowIdx
  let timestamp := env.nowTime (s.nowIdx + 1)
  { s with
    nowIdx := s.nowIdx + 2
    events := s.events ++
      [Event.captureCall frame,
       Event.print (captureMsg date_today timestamp),
       Event.imshow ("Depth Scan - " ++ timestamp) colored_map] }

/-- Result of one execution of the `while` body of `run()`: fall through
to the next iteration, `break` out of the loop, or raise an exception. -/
inductive IterOut where
  | normal (s : CamState)
  | broke (s : CamState)
  | raised (s : CamState) (e : PyExc)
  deriving Repr

/-- The state carried by an `IterOut`. -/
def IterOut.state : IterOut → CamState
  | IterOut.normal s => s
  | IterOut.broke s => s
  | IterOut.raised s _ => s

/-- One execution of the `while` body of `run()` (camera.py lines
101-116), for iteration number `i`.  Faithful to statement order:
`perf_counter`, `camera.read()`, `display_frame` selection (aliasing
`frame` when live render is off, else a fresh colormapped buffer),
`perf_counter`, the FPS division, `putText` mutating the display buffer
in place, `imshow` of the resized annotated buffer, `waitKey`, the
spacebar capture guard, and the quit check.  A failed read leaves
`frame = None`, which raises in `colormap` (live render) or in `putText`
(otherwise), after the second `perf_counter` call in the latter case. -/
def runIter (env : RunEnv) (i : ℕ) (s0 : CamState) : IterOut :=
  let frame_start_time := env.clock s0.clockIdx
  let s1 : CamState := { s0 with clockIdx := s0.clockIdx + 1 }
  match env.reads i with
  | none =>
      if env.live_render then
        IterOut.raised s1 PyExc.colormapNone
      else
        let frame_end_time := env.clock s1.clockIdx
        let s2 : CamState := { s1 with clockIdx := s1.clockIdx + 1 }
        if frame_end_time - frame_start_time = 0 then
          IterOut.raised s2 PyExc.zeroDivision
        else
          IterOut.raised s2 PyExc.putTextNone
  | some (h, w) =>
      let frameRef := s1.heap.length
      let frameImg : Img := { height := h, width := w, channels := 3, content := Pix.raw i }
      let s2 : CamState := { s1 with heap := s1.heap ++ [frameImg] }
      let displayRef := if env.live_render then s2.heap.length else frameRef
      let s3 : CamState :=
        if env.live_render then
          { s2 with heap := s2.heap ++ [estimator_colormap frameImg] }
        else s2
      let frame_end_time := env.clock s3.clockIdx
      let s4 : CamState := { s3 with clockIdx := s3.clockIdx + 1 }
      if frame_end_time - frame_start_time = 0 then
        IterOut.raised s4 PyExc.zeroDivision
      else
        let fps : ℤ := pyRound (1 / (frame_end_time - frame_start_time))
        let window_label := if env.live_render then "Depth Capture" else "Standard Camera"
        let annotated : Img := cv2_putText (s4.heap.getD displayRef frameImg) (fpsDraw fps)
        let s5 : CamState := { s4 with heap := s4.heap.set displayRef annotated }
        let s6 : CamState :=
          { s5 with events := s5.events ++
              [Event.imshow window_label (DepthCamera_resize annotated (DepthCamera_scale s5))] }
        let key := env.keys i
        let s7 : CamState :=
          if key = 32 ∧ env.live_render = false then
            DepthCamera_capture env s6 (s6.heap.getD frameRef frameImg)
          else s6
        if key = 27 ∨ key = 113 then
          IterOut.broke
            { s7 with is_running := false
                      events := s7.events ++ [Event.print "Closing scanner..."] }
        else
          IterOut.normal s7

/-- The fuel-driven `while self.is_running` loop of `run()`.  Returns the
state after the loop together with the exception (if any) that escaped
the body, or `none` when the fuel ran out with the loop still going. -/
def runAux (env : RunEnv) (fuel : ℕ) (i : ℕ) (s : CamState) : Option (CamState × Option PyExc) :=
  match fuel with
  | 0 => if s.is_running then none else some (s, none)
  | Nat.succ fuel' =>
      if s.is_running then
        match runIter env i s with
        | IterOut.normal s' => runAux env fuel' (i + 1) s'
        | IterOut.broke s' => some (s', none)
        | IterOut.raised s' e => some (s', some e)
      else some (s, none)

/-- The prologue of `run()`: `self.is_running = True` and the
`[{DEVICE}] Running depth scan...` notice. -/
def runStart (env : RunEnv) (s : CamState) : CamState :=
  let d := env.device.toUpper
  { s with is_running := true
           events := s.events ++ [Event.print s!"[{d}] Running depth scan..."] }

/-- The `except` clause's log line. -/
def errLine (e : PyExc) : String :=
  let m := excMsg e
  s!"Error during camera streaming: {m}"

/-- `DepthCamera.run()`: prologue, the `try`-wrapped loop, the `except`
clause logging an escaped exception, the `finally` clause releasing the
camera and destroying all windows, and the closing notice printed after
the `try` statement. -/
def DepthCamera_run (env : RunEnv) (fuel : ℕ) (s : CamState) : Option CamState :=
  match runAux env fuel 0 (runStart env s) with
  | none => none
  | some (s1, excOpt) =>
      let s2 : CamState :=
        match excOpt with
        | some e => { s1 with events := s1.events ++ [Event.print (errLine e)] }
        | none => s1
      some { s2 with events := s2.events ++
               [Event.release, Event.destroyAllWindows, Event.print "Scanner closed!"] }

/-- The event trace of a completed `run()` (empty when the fuel ran
out). -/
def runEvents (o : Option CamState) : List Event :=
  (o.map CamState.events).getD []

/-- The final `is_running` flag of a completed `run()`. -/
def runIsRunning (o : Option CamState) : Option Bool :=
  o.map CamState.is_running

/-- The final `is_running` flag of a completed loop (`runAux`). -/
def auxRunning (o : Option (CamState × Option PyExc)) : Option Bool :=
  o.map fun r => r.1.is_running

/-- Whether the completed loop (`runAux`) ended on an exception. -/
def auxRaised (o : Option (CamState × Option PyExc)) : Option Bool :=
  o.map fun r => r.2.isSome

/-- Whether a trace contains any invocation of `DepthCamera.capture`. -/
def hasCaptureCall (l : List Event) : Bool :=
  l.any fun e =>
    match e with
    | Event.captureCall _ => true
    | _ => false

/-- Outcome of a Python attribute access on the two scale descriptors:
assigning to a property with no setter raises `AttributeError`; calling a
non-callable value raises `TypeError`. -/
inductive PyAttrError where
  | attributeError
  | typeError
  deriving DecidableEq, Repr

/-- A Python `property` descriptor over a `DepthCamera` object: optional
getter and optional setter for the (float-valued) scale slot. -/
structure PyProp where
  fget : Option (CamState → ℚ)
  fset : Option (CamState → ℚ → CamState)

/-- The class attribute `scale`: `@property` over the getter only.
`@scale.setter` does not modify this descriptor — it builds a new one
bound to the decorated function's name, `set_scale`. -/
def scale_property : PyProp :=
  { fget := some DepthCamera_scale, fset := none }

/-- The class attribute `set_scale`: the descriptor returned by
`@scale.setter` applied to the setter body — same getter as `scale`,
plus the setter. -/
def set_scale_property : PyProp :=
  { fget := some DepthCamera_scale, fset := some DepthCamera_set_scale }

/-- Reading an attribute through a property descriptor: calls `fget`, or
raises `AttributeError` when there is none. -/
def prop_read (p : PyProp) (s : CamState) : Except PyAttrError ℚ :=
  match p.fget with
  | some g => Except.ok (g s)
  | none => Except.error PyAttrError.attributeError

/-- Assigning an attribute through a property descriptor: calls `fset`, or
raises `AttributeError` when there is none. -/
def prop_assign (p : PyProp) (s : CamState) (v : ℚ) : Except PyAttrError CamState :=
  match p.fset with
  | some f => Except.ok (f s v)
  | none => Except.error PyAttrError.attributeError

/-- Calling a Python float as if it were a function: always `TypeError`. -/
def pyCallFloat (q : ℚ) (arg : ℚ) : Except PyAttrError ℚ :=
  Except.error PyAttrError.typeError

/-- A trace with no teardown effects (no camera release, no window
destruction). -/
def noTeardown (l : List Event) : Prop :=
  ∀ e ∈ l, e ≠ Event.release ∧ e ≠ Event.destroyAllWindows

/-- A trace with no invocation of `DepthCamera.capture`. -/
def noCapture (l : List Event) : Prop :=
  ∀ e ∈ l, ∀ img, e ≠ Event.captureCall img

/-- A freshly constructed `DepthCamera(0, "standard", 1.0, "hot")`. -/
def DSInit : CamState := DepthCamera_init 1 "standard" "hot"

/-- Concrete environment: live render off, every read yields a 480x640
frame, the clock ticks one unit per call, spacebar is pressed in the first
iteration and Escape afterwards. -/
def envSpaceThenQuit : RunEnv :=
  { reads := fun _ => some (480, 640)
    clock := fun n => (n : ℚ)
    nowDate := fun _ => "07 October 2026"
    nowTime := fun _ => "10:00:00"
    keys := fun i => if i = 0 then 32 else 27
    live_render := false
    device := "cpu" }

/-- Concrete environment: every camera read fails while Escape is
pressed. -/
def envFailRead : RunEnv :=
  { envSpaceThenQuit with reads := fun _ => none, keys := fun _ => 27 }

/-- Concrete environment: Escape pressed in the first iteration. -/
def envQuitNow : RunEnv :=
  { envSpaceThenQuit with keys := fun _ => 27 }

/-- Concrete environment: live render on, spacebar pressed first, then
Escape. -/
def envLive : RunEnv :=
  { envSpaceThenQuit with live_render := true }

/-- Concrete environment: spacebar pressed in two consecutive iterations
within the same wall-clock second, then Escape. -/
def envSameSecond : RunEnv :=
  { envSpaceThenQuit with keys := fun i => if i < 2 then 32 else 27 }

/-- Concrete environment: `perf_counter` frozen, so an iteration has zero
elapsed time. -/
def envZeroClock : RunEnv :=
  { envSpaceThenQuit with clock := fun _ => 0, keys := fun _ => 27 }

/-- Concrete environment: no key is ever pressed (`waitKey` returns -1). -/
def envNoKey : RunEnv :=
  { envSpaceThenQuit with keys := fun _ => -1 }

set_option maxRecDepth 100000

/-- Setting the cell one past a list in place of a just-appended element. -/
theorem listSet_append (l : List α) (a b : α) :
    (l ++ [a]).set l.length b = l ++ [b] := by
  induction l with
  | nil => rfl
  | cons x xs ih => simp [List.set, ih]

/-- Reading the last cell of a list extended by one element. -/
theorem listGetD_append (l : List α) (a d : α) :
    (l ++ [a]).getD l.length d = a := by
  induction l with
  | nil => rfl
  | cons x xs ih => simpa [List.getD] using ih

@[simp] theorem noTeardown_nil : noTeardown [] := by simp [noTeardown]

@[simp] theorem noTeardown_append {a b : List Event} :
    noTeardown (a ++ b) ↔ noTeardown a ∧ noTeardown b := by
  constructor
  · intro hab
    exact ⟨fun e he => hab e (List.mem_append_left _ he),
      fun e he => hab e (List.mem_append_right _ he)⟩
  · rintro ⟨ha, hb⟩ e he
    rcases List.mem_append.mp he with h | h
    · exact ha e h
    · exact hb e h

@[simp] theorem noTeardown_cons {e : Event} {l : List Event} :
    noTeardown (e :: l) ↔ (e ≠ Event.release ∧ e ≠ Event.destroyAllWindows) ∧ noTeardown l := by
  constructor
  · intro hel
    exact ⟨hel e (List.mem_cons_self _ _), fun x hx => hel x (List.mem_cons_of_mem _ hx)⟩
  · rintro ⟨he, hl⟩ x hx
    rcases List.mem_cons.mp hx with rfl | hx
    · exact he
    · exact hl x hx

@[simp] theorem noCapture_nil : noCapture [] := by simp [noCapture]

@[simp] theorem noCapture_append {a b : List Event} :
    noCapture (a ++ b) ↔ noCapture a ∧ noCapture b := by
  constructor
  · intro hab
    exact ⟨fun e he => hab e (List.mem_append_left _ he),
      fun e he => hab e (List.mem_append_right _ he)⟩
  · rintro ⟨ha, hb⟩ e he
    rcases List.mem_append.mp he with h | h
    · exact ha e h
    · exact hb e h

@[simp] theorem noCapture_cons {e : Event} {l : List Event} :
    noCapture (e :: l) ↔ (∀ img, e ≠ Event.captureCall img) ∧ noCapture l := by
  constructor
  · intro hel
    exact ⟨hel e (List.mem_cons_self _ _), fun x hx => hel x (List.mem_cons_of_mem _ hx)⟩
  · rintro ⟨he, hl⟩ x hx
    rcases List.mem_cons.mp hx with rfl | hx
    · exact he
    · exact hl x hx

/-- One loop iteration emits no teardown events. -/
theorem runIter_noTeardown (env : RunEnv) (i : ℕ) (s : CamState)
    (hs : noTeardown s.events) : noTeardown (runIter env i s).state.events := by
  unfold runIter DepthCamera_capture
  rcases hr : env.reads i with _ | ⟨h, w⟩ <;> simp only [hr] <;>
    split_ifs <;> simp_all [IterOut.state]

/-- One loop iteration under live render emits no capture invocation. -/
theorem runIter_noCapture (env : RunEnv) (i : ℕ) (s : CamState)
    (hl : env.live_render = true) (hs : noCapture s.events) :
    noCapture (runIter env i s).state.events := by
  unfold runIter DepthCamera_capture
  rcases hr : env.reads i with _ | ⟨h, w⟩ <;> simp only [hr] <;>
    split_ifs <;> simp_all [IterOut.state]

/-- A fall-through iteration leaves `is_running` unchanged. -/
theorem runIter_normal_running (env : RunEnv) (i : ℕ) (s s' : CamState)
    (hn : runIter env i s = IterOut.normal s') : s'.is_running = s.is_running := by
  unfold runIter DepthCamera_capture at hn
  rcases hr : env.reads i with _ | ⟨h, w⟩ <;> simp only [hr] at hn <;>
    split_ifs at hn <;> (try rw [IterOut.normal.injEq] at hn) <;> (subst hn; rfl)

/-- An iteration that breaks out of the loop has set `is_running` to
false. -/
theorem runIter_broke_running (env : RunEnv) (i : ℕ) (s s' : CamState)
    (hn : runIter env i s = IterOut.broke s') : s'.is_running = false := by
  unfold runIter DepthCamera_capture at hn
  rcases hr : env.reads i with _ | ⟨h, w⟩ <;> simp only [hr] at hn <;>
    split_ifs at hn <;> (try rw [IterOut.broke.injEq] at hn) <;> (subst hn; rfl)

/-- An iteration that raises leaves `is_running` unchanged. -/
theorem runIter_raised_running (env : RunEnv) (i : ℕ) (s s' : CamState) (e : PyExc)
    (hn : runIter env i s = IterOut.raised s' e) : s'.is_running = s.is_running := by
  unfold runIter DepthCamera_capture at hn
  rcases hr : env.reads i with _ | ⟨h, w⟩ <;> simp only [hr] at hn <;>
    split_ifs at hn <;> (try rw [IterOut.raised.injEq] at hn) <;>
      (obtain ⟨h2, h3⟩ := hn; subst h2; rfl)

/-- The loop driver preserves absence of teardown events: nothing inside
the `while` loop releases the camera or destroys windows. -/
theorem runAux_noTeardown (env : RunEnv) :
    ∀ (fuel i : ℕ) (s s' : CamState) (exc : Option PyExc),
      noTeardown s.events → runAux env fuel i s = some (s', exc) → noTeardown s'.events := by
  intro fuel
  induction fuel with
  | zero =>
      intro i s s' exc hs hr
      unfold runAux at hr
      split_ifs at hr
      rw [Option.some.injEq, Prod.mk.injEq] at hr
      obtain ⟨h1, h2⟩ := hr
      subst h1
      exact hs
  | succ fuel ih =>
      intro i s s' exc hs hr
      unfold runAux at hr
      split_ifs at hr
      · cases hit : runIter env i s with
        | normal s1 =>
            rw [hit] at hr
            have h1 := runIter_noTeardown env i s hs
            rw [hit] at h1
            exact ih (i + 1) s1 s' exc h1 hr
        | broke s1 =>
            rw [hit] at hr
            rw [Option.some.injEq, Prod.mk.injEq] at hr
            obtain ⟨h1, h2⟩ := hr
            subst h1
            have h1 := runIter_noTeardown env i s hs
            rw [hit] at h1
            exact h1
        | raised s1 e =>
            rw [hit] at hr
            rw [Option.some.injEq, Prod.mk.injEq] at hr
            obtain ⟨h1, h2⟩ := hr
            subst h1
            have h1 := runIter_noTeardown env i s hs
            rw [hit] at h1
            exact h1
      · rw [Option.some.injEq, Prod.mk.injEq] at hr
        obtain ⟨h1, h2⟩ := hr
        subst h1
        exact hs

/-- The loop driver under live render preserves absence of capture
invocations. -/
theorem runAux_noCapture (env : RunEnv) (hl : env.live_render = true) :
    ∀ (fuel i : ℕ) (s s' : CamState) (exc : Option PyExc),
      noCapture s.events → runAux env fuel i s = some (s', exc) → noCapture s'.events := by
  intro fuel
  induction fuel with
  | zero =>
      intro i s s' exc hs hr
      unfold runAux at hr
      split_ifs at hr
      rw [Option.some.injEq, Prod.mk.injEq] at hr
      obtain ⟨h1, h2⟩ := hr
      subst h1
      exact hs
  | succ fuel ih =>
      intro i s s' exc hs hr
      unfold runAux at hr
      split_ifs at hr
      · cases hit : runIter env i s with
        | normal s1 =>
            rw [hit] at hr
            have h1 := runIter_noCapture env i s hl hs
            rw [hit] at h1
            exact ih (i + 1) s1 s' exc h1 hr
        | broke s1 =>
            rw [hit] at hr
            rw [Option.some.injEq, Prod.mk.injEq] at hr
            obtain ⟨h1, h2⟩ := hr
            subst h1
            have h1 := runIter_noCapture env i s hl hs
            rw [hit] at h1
            exact h1
        | raised s1 e =>
            rw [hit] at hr
            rw [Option.some.injEq, Prod.mk.injEq] at hr
            obtain ⟨h1, h2⟩ := hr
            subst h1
            have h1 := runIter_noCapture env i s hl hs
            rw [hit] at h1
            exact h1
      · rw [Option.some.injEq, Prod.mk.injEq] at hr
        obtain ⟨h1, h2⟩ := hr
        subst h1
        exact hs

/-- When the loop is entered running, its final `is_running` flag equals
"an exception escaped the body": quitting resets it, raising does not. -/
theorem runAux_flag (env : RunEnv) :
    ∀ (fuel i : ℕ) (s : CamState), s.is_running = true →
      auxRunning (runAux env fuel i s) = auxRaised (runAux env fuel i s) := by
  intro fuel
  induction fuel with
  | zero =>
      intro i s hs
      unfold runAux
      rw [hs]
      rfl
  | succ fuel ih =>
      intro i s hs
      unfold runAux
      rw [hs]
      simp only [if_true]
      cases hit : runIter env i s with
      | normal s1 =>
          have h1 := runIter_normal_running env i s s1 hit
          exact ih (i + 1) s1 (h1.trans hs)
      | broke s1 =>
          have h1 := runIter_broke_running env i s s1 hit
          simp [auxRunning, auxRaised, h1]
      | raised s1 e =>
          have h1 := runIter_raised_running env i s s1 e hit
          simp [auxRunning, auxRaised, h1, hs]

/-- The prologue of `run()` on a fresh `DepthCamera` has printed two
notices and no teardown events. -/
theorem startState_noTeardown (env : RunEnv) (sc : ℚ) (mode color : String) :
    noTeardown (runStart env (DepthCamera_init sc mode color)).events := by
  simp [runStart, DepthCamera_init]

/-- `hasCaptureCall` is the boolean mirror of the `noCapture`
predicate. -/
theorem noCapture_iff_hasCaptureCall {l : List Event} :
    hasCaptureCall l = false ↔ noCapture l := by
  induction l with
  | nil => simp [hasCaptureCall]
  | cons e l ih =>
      rw [noCapture_cons, ← ih]
      cases e <;> simp [hasCaptureCall]

/-- Python `round` of an integer-valued float is that integer. -/
theorem pyRound_intCast (n : ℤ) : pyRound ((n : ℤ) : ℚ) = n := by
  unfold pyRound
  norm_num [Int.floor_intCast]

/-- Appending to a common prefix is injective on strings. -/
theorem strApp_cancel (p t1 t2 : String) (h : p ++ t1 = p ++ t2) : t1 = t2 := by
  have hd : (p ++ t1).data = (p ++ t2).data := congrArg String.data h
  simp only [String.data_append] at hd
  cases t1
  cases t2
  simp only at hd
  exact congrArg String.mk (List.append_cancel_left hd)

/-- Two capture window titles agree exactly when the embedded timestamps
agree. -/
theorem depthScanTitle_beq (t1 t2 : String) :
    (("Depth Scan - " ++ t1) == ("Depth Scan - " ++ t2)) = (t1 == t2) := by
  rcases hbe : t1 == t2 with _ | _
  · have hne : t1 ≠ t2 := by
      intro hh
      rw [hh] at hbe
      simp at hbe
    have hne2 : ("Depth Scan - " ++ t1) ≠ ("Depth Scan - " ++ t2) := by
      intro hh
      exact hne (strApp_cancel _ _ _ hh)
    simpa using hne2
  · have heq : t1 = t2 := by simpa using hbe
    rw [heq]
    simp

/-- C1 (counterexample): with live render off, a spacebar press makes
`run()` invoke `capture` with the raw frame read that iteration — but that
frame is NOT pixel-for-pixel equal to what the camera read returned: the
FPS overlay was drawn onto the very same buffer (`display_frame` aliases
`frame`, and `cv2.putText` mutates in place), so `capture` receives the
annotated buffer, and the pristine raw frame is never passed. -/
theorem C1_counterexample :
    (DepthCamera_run envSpaceThenQuit 2 DSInit).isSome = true ∧
    Event.captureCall { height := 480, width := 640, channels := 3
                        content := Pix.withText (Pix.raw 0) (fpsDraw 1) } ∈
      runEvents (DepthCamera_run envSpaceThenQuit 2 DSInit) ∧
    Event.captureCall { height := 480, width := 640, channels := 3, content := Pix.raw 0 } ∉
      runEvents (DepthCamera_run envSpaceThenQuit 2 DSInit) := by
  with_unfolding_all decide

/-- C1 (amended): in `run()`, when live render is off, the camera read of
the iteration succeeded, elapsed time is nonzero, and the polled key is
the spacebar (32), `capture` is invoked with that iteration's raw frame
object, which at call time carries exactly the FPS text overlay drawn in
place (and is neither scaled nor colormapped); afterwards the iteration
falls through normally with `is_running` still true, so the main loop
continues. -/
theorem C1_capture_receives_annotated_frame (env : RunEnv) (i : ℕ) (s : CamState) (h w : ℤ)
    (hl : env.live_render = false)
    (hr : env.reads i = some (h, w))
    (hrun : s.is_running = true)
    (hz : env.clock (s.clockIdx + 1) - env.clock s.clockIdx ≠ 0)
    (hk : env.keys i = 32) :
    ∃ s', runIter env i s = IterOut.normal s' ∧ s'.is_running = true ∧
      Event.captureCall
        (cv2_putText { height := h, width := w, channels := 3, content := Pix.raw i }
          (fpsDraw (pyRound (1 / (env.clock (s.clockIdx + 1) - env.clock s.clockIdx))))) ∈
        s'.events := by
  unfold runIter
  simp only [hr, hl, hk, if_neg hz, Bool.false_eq_true, if_false,
    listGetD_append, listSet_append]
  norm_num [DepthCamera_capture]
  exact hrun

/-- C1 (witness): the amended statement instantiated on a concrete
environment. -/
theorem C1_witness :
    ∃ s', runIter envSpaceThenQuit 0 (runStart envSpaceThenQuit DSInit) = IterOut.normal s' ∧
      s'.is_running = true ∧
      Event.captureCall
        (cv2_putText { height := 480, width := 640, channels := 3, content := Pix.raw 0 }
          (fpsDraw (pyRound (1 /
            (envSpaceThenQuit.clock ((runStart envSpaceThenQuit DSInit).clockIdx + 1) -
             envSpaceThenQuit.clock (runStart envSpaceThenQuit DSInit).clockIdx))))) ∈
        s'.events :=
  C1_capture_receives_annotated_frame envSpaceThenQuit 0 (runStart envSpaceThenQuit DSInit)
    480 640 rfl rfl rfl
    (by norm_num [envSpaceThenQuit, runStart, DSInit, DepthCamera_init]) rfl

/-- C2: every completed `run()` — whether it ended via the quit key, via
an exception escaping the loop body (a failed read included), or via
fall-through — releases the camera and closes all windows exactly once
each, in the `finally` clause, and prints the final "Scanner closed!"
notice afterwards: the trace ends with exactly
`[release, destroyAllWindows, print "Scanner closed!"]` and contains no
other teardown events. -/
theorem C2_teardown_exactly_once (env : RunEnv) (fuel : ℕ) (sc : ℚ) (mode color : String)
    (h : (DepthCamera_run env fuel (DepthCamera_init sc mode color)).isSome = true) :
    ∃ pre, runEvents (DepthCamera_run env fuel (DepthCamera_init sc mode color)) =
        pre ++ [Event.release, Event.destroyAllWindows, Event.print "Scanner closed!"] ∧
      noTeardown pre := by
  cases hra : runAux env fuel 0 (runStart env (DepthCamera_init sc mode color)) with
  | none =>
      unfold DepthCamera_run at h
      rw [hra] at h
      simp at h
  | some r =>
      obtain ⟨s1, exc⟩ := r
      have hnt : noTeardown s1.events :=
        runAux_noTeardown env fuel 0 _ s1 exc (startState_noTeardown env sc mode color) hra
      cases exc with
      | none =>
          refine ⟨s1.events, ?_, hnt⟩
          unfold DepthCamera_run
          rw [hra]
          simp [runEvents]
      | some e =>
          refine ⟨s1.events ++ [Event.print (errLine e)], ?_, ?_⟩
          · unfold DepthCamera_run
            rw [hra]
            simp [runEvents]
          · simp [hnt]

/-- C2 (witness): a quit-key run, completing with the teardown suffix. -/
theorem C2_witness :
    ∃ pre, runEvents (DepthCamera_run envQuitNow 1 (DepthCamera_init 1 "standard" "hot")) =
        pre ++ [Event.release, Event.destroyAllWindows, Event.print "Scanner closed!"] ∧
      noTeardown pre :=
  C2_teardown_exactly_once envQuitNow 1 1 "standard" "hot" (by with_unfolding_all rfl)

/-- C3 (counterexample): after a `run()` that ended on an exception (the
first camera read fails, so `None` reaches `cv2.putText`), `is_running` is
still `true` — the code never resets the flag on the exception path, so
"after run() returns, RunState is stopped regardless of how the loop
ended" is false. -/
theorem C3_counterexample :
    runIsRunning (DepthCamera_run envFailRead 1 DSInit) = some true := by
  with_unfolding_all rfl

/-- C3 (amended): `is_running` is set to true when `run()` starts, and
when the loop completes, the final flag equals "an exception escaped the
loop body": it is reset to false by the quit handler (and on natural
fall-through), but is left `true` when an unrecoverable failure raises out
of the body. -/
theorem C3_flag_tracks_exception (env : RunEnv) (fuel : ℕ) (s0 : CamState) :
    (runStart env s0).is_running = true ∧
      auxRunning (runAux env fuel 0 (runStart env s0)) =
        auxRaised (runAux env fuel 0 (runStart env s0)) := by
  constructor
  · rfl
  · exact runAux_flag env fuel 0 (runStart env s0) rfl

/-- C4: for every image and positive factor, `__resize` returns a fresh
image whose height and width are `round(h * factor)` and
`round(w * factor)` (Python banker's rounding, as in the source's
`round`), whose pixel data is a fresh resample of the input (the input is
not mutated — the embedding's resize is a pure function returning a new
`resized` buffer), and a factor of 1.0 preserves both dimensions. -/
theorem C4_resize_dimensions (img : Img) (factor : ℚ) (hf : 0 < factor) :
    (DepthCamera_resize img factor).height = pyRound ((img.height : ℚ) * factor) ∧
    (DepthCamera_resize img factor).width = pyRound ((img.width : ℚ) * factor) ∧
    (DepthCamera_resize img factor).content =
      Pix.resized img.content (pyRound ((img.width : ℚ) * factor))
        (pyRound ((img.height : ℚ) * factor)) ∧
    (DepthCamera_resize img 1).height = img.height ∧
    (DepthCamera_resize img 1).width = img.width := by
  refine ⟨rfl, rfl, rfl, ?_, ?_⟩ <;>
    simp [DepthCamera_resize, cv2_resize, mul_one, pyRound_intCast]

/-- C4 (witness): the dimension contract evaluated on a 480x640 frame and
factor 2. -/
theorem C4_witness :
    (DepthCamera_resize { height := 480, width := 640, channels := 3, content := Pix.raw 0 } 2).height =
      pyRound (((480 : ℤ) : ℚ) * 2) ∧
    (DepthCamera_resize { height := 480, width := 640, channels := 3, content := Pix.raw 0 } 2).width =
      pyRound (((640 : ℤ) : ℚ) * 2) ∧
    (DepthCamera_resize { height := 480, width := 640, channels := 3, content := Pix.raw 0 } 2).content =
      Pix.resized (Pix.raw 0) (pyRound (((640 : ℤ) : ℚ) * 2)) (pyRound (((480 : ℤ) : ℚ) * 2)) ∧
    (DepthCamera_resize { height := 480, width := 640, channels := 3, content := Pix.raw 0 } 1).height = 480 ∧
    (DepthCamera_resize { height := 480, width := 640, channels := 3, content := Pix.raw 0 } 1).width = 640 :=
  C4_resize_dimensions { height := 480, width := 640, channels := 3, content := Pix.raw 0 } 2
    (by norm_num)

/-- C5: while the estimator's `live_render` flag is true, `run()` never
invokes `capture`, whatever keys are polled (spacebar included): the trace
of any completed run contains no capture invocation. -/
theorem C5_live_render_never_captures (env : RunEnv) (fuel : ℕ) (sc : ℚ) (mode color : String)
    (hl : env.live_render = true) :
    hasCaptureCall (runEvents (DepthCamera_run env fuel (DepthCamera_init sc mode color))) = false := by
  cases hra : runAux env fuel 0 (runStart env (DepthCamera_init sc mode color)) with
  | none =>
      unfold DepthCamera_run
      rw [hra]
      rfl
  | some r =>
      obtain ⟨s1, exc⟩ := r
      have hnc : noCapture s1.events := by
        refine runAux_noCapture env hl fuel 0 _ s1 exc ?_ hra
        simp [runStart, DepthCamera_init, noCapture]
      rw [noCapture_iff_hasCaptureCall]
      cases exc with
      | none =>
          unfold DepthCamera_run
          rw [hra]
          simp [runEvents, hnc]
      | some e =>
          unfold DepthCamera_run
          rw [hra]
          simp [runEvents, hnc]

/-- C5 (witness): a live-render run in which the spacebar is pressed still
produces no capture invocation. -/
theorem C5_witness :
    hasCaptureCall (runEvents (DepthCamera_run envLive 2 (DepthCamera_init 1 "standard" "hot"))) = false :=
  C5_live_render_never_captures envLive 2 1 "standard" "hot" rfl

/-- C6 (counterexample): when the camera read of the iteration fails, the
pending Escape key is never polled — the loop body raises at `putText`
before reaching `waitKey` — so `run()` ends without the shutdown notice
and with `is_running` still true; the quit behaviour is NOT independent of
camera read success. -/
theorem C6_counterexample :
    Event.print "Closing scanner..." ∉ runEvents (DepthCamera_run envFailRead 1 DSInit) ∧
    runIsRunning (DepthCamera_run envFailRead 1 DSInit) = some true := by
  with_unfolding_all decide

/-- C6 (amended): in an iteration whose camera read succeeded and whose
elapsed time is nonzero, polling Escape (27) or q (113) makes the loop
print the shutdown notice as the iteration's last event, set `is_running`
to false, and break out of the `while` loop immediately, for any remaining
fuel; with a failed read the key is never polled and the loop instead
terminates through the exception boundary. -/
theorem C6_quit_terminates_iteration (env : RunEnv) (fuel i : ℕ) (s : CamState) (h w : ℤ)
    (hrun : s.is_running = true)
    (hr : env.reads i = some (h, w))
    (hz : env.clock (s.clockIdx + 1) - env.clock s.clockIdx ≠ 0)
    (hk : env.keys i = 27 ∨ env.keys i = 113) :
    ∃ s', runAux env (fuel + 1) i s = some (s', none) ∧ s'.is_running = false ∧
      s'.events.getLast? = some (Event.print "Closing scanner...") := by
  unfold runAux
  rw [hrun]
  simp only [if_true]
  unfold runIter
  rcases hk with hk | hk <;>
    cases hlv : env.live_render <;>
      simp only [hr, hlv, hk, hz, Bool.false_eq_true, ite_false, ite_true, if_false, if_true,
        ne_eq, not_false_eq_true] <;>
      norm_num [List.getLast?_concat]

/-- C6 (witness): the amended statement instantiated on a concrete
environment where Escape is pressed in a successful iteration. -/
theorem C6_witness :
    ∃ s', runAux envQuitNow 1 0 (runStart envQuitNow DSInit) = some (s', none) ∧
      s'.is_running = false ∧
      s'.events.getLast? = some (Event.print "Closing scanner...") :=
  C6_quit_terminates_iteration envQuitNow 0 0 (runStart envQuitNow DSInit) 480 640 rfl rfl
    (by norm_num [envQuitNow, envSpaceThenQuit, runStart, DSInit, DepthCamera_init])
    (Or.inl rfl)

/-- C7: when an iteration's two `perf_counter` readings coincide (zero
elapsed time), the FPS computation `round(1 / (end - start))` raises the
division-by-zero fault; nothing inside the loop handles it, so the run
completes by the single boundary handler: the trace is exactly the
prologue, then the one error log line, then the teardown and the final
notice. -/
theorem C7_zero_elapsed_raises_logged_teardown (env : RunEnv) (fuel : ℕ) (h w : ℤ)
    (sc : ℚ) (mode color : String)
    (hr : env.reads 0 = some (h, w))
    (hclk : env.clock 1 = env.clock 0) :
    runEvents (DepthCamera_run env (fuel + 1) (DepthCamera_init sc mode color)) =
      (runStart env (DepthCamera_init sc mode color)).events ++
        [Event.print (errLine PyExc.zeroDivision), Event.release, Event.destroyAllWindows,
         Event.print "Scanner closed!"] := by
  unfold DepthCamera_run runAux
  have h1 : (runStart env (DepthCamera_init sc mode color)).is_running = true := rfl
  rw [h1]
  simp only [if_true]
  unfold runIter
  have hc0 : (runStart env (DepthCamera_init sc mode color)).clockIdx = 0 := rfl
  rw [hc0]
  have hz : env.clock (0 + 1) - env.clock 0 = 0 := by
    rw [zero_add, hclk]
    ring
  cases hlv : env.live_render <;>
    simp only [hr, hlv, hz, Bool.false_eq_true, ite_false, ite_true, if_false, if_true] <;>
    simp [runEvents]

/-- C7 (witness): a frozen clock makes the first iteration raise and the
run tear down after logging the division error. -/
theorem C7_witness :
    runEvents (DepthCamera_run envZeroClock 1 (DepthCamera_init 1 "standard" "hot")) =
      (runStart envZeroClock (DepthCamera_init 1 "standard" "hot")).events ++
        [Event.print (errLine PyExc.zeroDivision), Event.release, Event.destroyAllWindows,
         Event.print "Scanner closed!"] :=
  C7_zero_elapsed_raises_logged_teardown envZeroClock 0 480 640 1 "standard" "hot" rfl rfl

/-- C8: for every value (zero and negatives included), the `set_scale`
setter body unconditionally replaces the stored scale, independently of
loop state, and the next displayed frame is resized with exactly the new
value as read through the `scale` accessor: the iteration's `imshow` shows
the annotated frame resized by the new factor, with dimensions
`round(h * v)` by `round(w * v)`. -/
theorem C8_set_scale_unconditional_and_effective (env : RunEnv) (i : ℕ) (s : CamState)
    (v : ℚ) (h w : ℤ)
    (hl : env.live_render = false)
    (hr : env.reads i = some (h, w))
    (hz : env.clock (s.clockIdx + 1) - env.clock s.clockIdx ≠ 0)
    (hk : env.keys i = -1) :
    DepthCamera_scale (DepthCamera_set_scale s v) = v ∧
    (∃ s', runIter env i (DepthCamera_set_scale s v) = IterOut.normal s' ∧
      s'.events = s.events ++
        [Event.imshow "Standard Camera"
          (DepthCamera_resize
            (cv2_putText { height := h, width := w, channels := 3, content := Pix.raw i }
              (fpsDraw (pyRound (1 / (env.clock (s.clockIdx + 1) - env.clock s.clockIdx))))) v)]) ∧
    (DepthCamera_resize
        (cv2_putText { height := h, width := w, channels := 3, content := Pix.raw i }
          (fpsDraw (pyRound (1 / (env.clock (s.clockIdx + 1) - env.clock s.clockIdx))))) v).height =
      pyRound ((h : ℚ) * v) ∧
    (DepthCamera_resize
        (cv2_putText { height := h, width := w, channels := 3, content := Pix.raw i }
          (fpsDraw (pyRound (1 / (env.clock (s.clockIdx + 1) - env.clock s.clockIdx))))) v).width =
      pyRound ((w : ℚ) * v) := by
  refine ⟨rfl, ?_, rfl, rfl⟩
  unfold runIter
  simp only [DepthCamera_set_scale, hr, hl, hk, hz, Bool.false_eq_true, ite_false, ite_true,
    if_false, if_true, ne_eq, not_false_eq_true, listGetD_append, listSet_append]
  norm_num [DepthCamera_scale]

/-- C8 (witness): halving the scale of a fresh camera resizes the next
displayed 480x640 frame to `round(240)` by `round(320)`. -/
theorem C8_witness :
    DepthCamera_scale (DepthCamera_set_scale DSInit (1/2)) = 1/2 ∧
    (∃ s', runIter envNoKey 0 (DepthCamera_set_scale DSInit (1/2)) = IterOut.normal s' ∧
      s'.events = DSInit.events ++
        [Event.imshow "Standard Camera"
          (DepthCamera_resize
            (cv2_putText { height := 480, width := 640, channels := 3, content := Pix.raw 0 }
              (fpsDraw (pyRound (1 / (envNoKey.clock (DSInit.clockIdx + 1) -
                envNoKey.clock DSInit.clockIdx))))) (1/2))]) ∧
    (DepthCamera_resize
        (cv2_putText { height := 480, width := 640, channels := 3, content := Pix.raw 0 }
          (fpsDraw (pyRound (1 / (envNoKey.clock (DSInit.clockIdx + 1) -
            envNoKey.clock DSInit.clockIdx))))) (1/2)).height =
      pyRound (((480 : ℤ) : ℚ) * (1/2)) ∧
    (DepthCamera_resize
        (cv2_putText { height := 480, width := 640, channels := 3, content := Pix.raw 0 }
          (fpsDraw (pyRound (1 / (envNoKey.clock (DSInit.clockIdx + 1) -
            envNoKey.clock DSInit.clockIdx))))) (1/2)).width =
      pyRound (((640 : ℤ) : ℚ) * (1/2)) :=
  C8_set_scale_unconditional_and_effective envNoKey 0 DSInit (1/2) 480 640 rfl rfl
    (by norm_num [envNoKey, envSpaceThenQuit, DSInit, DepthCamera_init]) rfl

/-- C9 (counterexample): capture window titles are NOT unique across
invocations — the title embeds only the time of day to second resolution,
so two spacebar captures within the same wall-clock second open windows
with the identical title `Depth Scan - 10:00:00` for two different
captured frames. -/
theorem C9_counterexample :
    Event.imshow "Depth Scan - 10:00:00"
        { height := 480, width := 640, channels := 3
          content := Pix.colormapped (Pix.withText (Pix.raw 0) (fpsDraw 1)) } ∈
      runEvents (DepthCamera_run envSameSecond 3 DSInit) ∧
    Event.imshow "Depth Scan - 10:00:00"
        { height := 480, width := 640, channels := 3
          content := Pix.colormapped (Pix.withText (Pix.raw 1) (fpsDraw 1)) } ∈
      runEvents (DepthCamera_run envSameSecond 3 DSInit) ∧
    ({ height := 480, width := 640, channels := 3
       content := Pix.colormapped (Pix.withText (Pix.raw 0) (fpsDraw 1)) } : Img) ≠
      { height := 480, width := 640, channels := 3
        content := Pix.colormapped (Pix.withText (Pix.raw 1) (fpsDraw 1)) } := by
  with_unfolding_all decide

/-- C9 (amended): `capture(frame)` applies the estimator's colormap to the
given frame and shows the result in a window whose title embeds the
wall-clock time of day (`Depth Scan - H:M:S`), emits a log line carrying
both the date and the time of capture, and leaves `is_running` (and the
rest of the camera state other than the now-counter and the trace)
unchanged; titles of two invocations are distinct exactly when their
timestamp strings are distinct — invocations within the same second
collide. -/
theorem C9_capture_colormap_timestamped_window (env : RunEnv) (s : CamState) (frame : Img) :
    DepthCamera_capture env s frame =
      { s with nowIdx := s.nowIdx + 2
               events := s.events ++
                 [Event.captureCall frame,
                  Event.print (captureMsg (env.nowDate s.nowIdx) (env.nowTime (s.nowIdx + 1))),
                  Event.imshow ("Depth Scan - " ++ env.nowTime (s.nowIdx + 1))
                    (estimator_colormap frame)] } ∧
    (DepthCamera_capture env s frame).is_running = s.is_running ∧
    ∀ t1 t2 : String, (("Depth Scan - " ++ t1) == ("Depth Scan - " ++ t2)) = (t1 == t2) :=
  ⟨rfl, rfl, depthScanTitle_beq⟩

/-- C10: the display-scale accessor and mutator are exposed as two
distinct Python properties: reading `scale` returns the stored factor,
assigning to `scale` raises `AttributeError` (its descriptor has no
setter), the only mutation path is assignment through the separately named
`set_scale` descriptor (whose setter stores the new value unconditionally),
and calling `set_scale(v)` as a method is a `TypeError` because reading
`set_scale` yields the current float, which is not callable. -/
theorem C10_scale_descriptor_semantics (s : CamState) (v : ℚ) :
    prop_read scale_property s = Except.ok (DepthCamera_scale s) ∧
    prop_assign scale_property s v = Except.error PyAttrError.attributeError ∧
    prop_read set_scale_property s = Except.ok (DepthCamera_scale s) ∧
    prop_assign set_scale_property s v = Except.ok (DepthCamera_set_scale s v) ∧
    pyCallFloat (DepthCamera_scale s) v = Except.error PyAttrError.typeError :=
  ⟨rfl, rfl, rfl, rfl, rfl⟩
